import Mathlib

set_option autoImplicit false

/-!
Verification of the potoken-generator core (src/potoken_generator/extractor.py)
against its natural-language specification.

The development shallowly embeds the module:
* JSON values are the inductive `Json` (numbers are modelled as integers;
  fractional and exponent forms are out of scope for every claim considered).
  Parsed Python `None` and JSON `null` coincide, so lookups that Python
  conflates with a missing value conflate them here too.
* the pure extraction pipeline `_extract_token` (lines 77-227) becomes
  `extract_token`, returning `Except ExtractFailure TokenInfo` where the three
  failure constructors correspond to the three return-None-with-log branches;
* the stateful controller (`request_update`, `_send_handler`, `_perform_update`,
  `_update`, `run`) becomes explicit state passing over `ExtState`, with the
  browser environment of one session abstracted as `SessionEnv` and exceptions
  as `Except Exc`.
-/

namespace Potoken

/-- JSON values as produced by Python json.loads, with numbers restricted to
integers.  Object fields keep insertion order, as Python dicts do. -/
inductive Json where
  | null
  | bool (b : Bool)
  | num (n : Int)
  | str (s : String)
  | arr (items : List Json)
  | obj (fields : List (String × Json))

/-- Whether a JSON value is a string (Python isinstance(v, str)). -/
def Json.isStr : Json → Bool
  | .str _ => true
  | _ => false

/-- First value bound to key k in an object's field list (Python dict lookup;
the parser keeps keys unique, so first match is the binding). -/
def objGet : List (String × Json) → String → Option Json
  | [], _ => none
  | (k0, v0) :: rest, k => if k0 == k then some v0 else objGet rest k

/-- Insert a binding the way a Python dict does: replace the value in place if
the key exists, otherwise append. -/
def objInsert : List (String × Json) → String → Json → List (String × Json)
  | [], k, v => [(k, v)]
  | (k0, v0) :: rest, k, v =>
    if k0 == k then (k0, v) :: rest else (k0, v0) :: objInsert rest k v

/-- Python json.loads maps JSON null to None; a lookup result of null is the
same Python value as a missed lookup.  This conflation step applies it. -/
def jsonToPy : Option Json → Option Json
  | some .null => none
  | o => o

/-- Python dict.get(k): None both when the key is absent and when the stored
value is JSON null. -/
def pyGet (fields : List (String × Json)) (k : String) : Option Json :=
  jsonToPy (objGet fields k)

/- ------------------------------------------------------------------ -/
/- A small JSON parser mirroring json.loads on the inputs relevant here. -/

/-- JSON whitespace characters (the four that json.loads skips). -/
def isJsonWs (c : Char) : Bool :=
  " \t\n\r".data.contains c

/-- Drop leading JSON whitespace. -/
def skipWs (cs : List Char) : List Char :=
  match cs with
  | c :: rest => if isJsonWs c then skipWs rest else cs
  | [] => cs

/-- Value of one hexadecimal digit, by code point range. -/
def hexDigitVal (c : Char) : Option Nat :=
  let n := c.toNat
  if 48 ≤ n && n ≤ 57 then some (n - 48)
  else if 97 ≤ n && n ≤ 102 then some (n - 87)
  else if 65 ≤ n && n ≤ 70 then some (n - 55)
  else none

/-- The single-character escapes of the JSON grammar. -/
def escapeChar (e : Char) : Option Char :=
  if e == 'n' then some '\n'
  else if e == 't' then some '\t'
  else if e == 'r' then some '\r'
  else if e == 'b' then some '\x08'
  else if e == 'f' then some '\x0c'
  else if e == '"' then some '"'
  else if e == '\\' then some '\\'
  else if e == '/' then some '/'
  else none

/-- Parse the remainder of a JSON string literal (opening quote consumed),
handling the escape forms json.loads accepts; raw control characters are
rejected as in strict-mode json.loads.  Surrogate-pair recombination is not
modelled. -/
def parseStringRest : List Char → List Char → Option (String × List Char)
  | [], _ => none
  | c :: cs, acc =>
    if c == '"' then some (String.mk acc.reverse, cs)
    else if c == '\\' then
      match cs with
      | 'u' :: h1 :: h2 :: h3 :: h4 :: cs3 =>
        match hexDigitVal h1, hexDigitVal h2, hexDigitVal h3, hexDigitVal h4 with
        | some a, some b, some c3, some d =>
          parseStringRest cs3
            (Char.ofNat (a * 4096 + b * 256 + c3 * 16 + d) :: acc)
        | _, _, _, _ => none
      | e :: cs2 =>
        match escapeChar e with
        | some ch => parseStringRest cs2 (ch :: acc)
        | none => none
      | [] => none
    else if c.toNat < 32 then none
    else parseStringRest cs (c :: acc)

/-- Consume a run of decimal digits, accumulating their value. -/
def digitsToNat (acc : Nat) : List Char → Nat × List Char
  | [] => (acc, [])
  | c :: cs =>
    if c.isDigit then digitsToNat (acc * 10 + (c.toNat - '0'.toNat)) cs
    else (acc, c :: cs)

/-- Parse an integer JSON number (optional minus sign then digits). -/
def parseNum (cs : List Char) : Option (Json × List Char) :=
  match cs with
  | '-' :: c :: rest =>
    if c.isDigit then
      let p := digitsToNat 0 (c :: rest)
      some (.num (-(p.1 : Int)), p.2)
    else none
  | c :: rest =>
    if c.isDigit then
      let p := digitsToNat 0 (c :: rest)
      some (.num (p.1 : Int), p.2)
    else none
  | [] => none

mutual

/-- Parse one JSON value from the input, fuel-bounded. -/
def parseValue : Nat → List Char → Option (Json × List Char)
  | 0, _ => none
  | fuel + 1, cs =>
    match skipWs cs with
    | [] => none
    | c :: rest =>
      if c == '\x7b' then
        match skipWs rest with
        | '\x7d' :: rest2 => some (.obj [], rest2)
        | rest2 => parseMembers fuel [] rest2
      else if c == '[' then
        match skipWs rest with
        | ']' :: rest2 => some (.arr [], rest2)
        | rest2 => parseItems fuel [] rest2
      else if c == '"' then
        match parseStringRest rest [] with
        | some (s, rest2) => some (.str s, rest2)
        | none => none
      else if c == 't' then
        match rest with
        | 'r' :: 'u' :: 'e' :: rest2 => some (.bool true, rest2)
        | _ => none
      else if c == 'f' then
        match rest with
        | 'a' :: 'l' :: 's' :: 'e' :: rest2 => some (.bool false, rest2)
        | _ => none
      else if c == 'n' then
        match rest with
        | 'u' :: 'l' :: 'l' :: rest2 => some (.null, rest2)
        | _ => none
      else if c == '-' || c.isDigit then parseNum (c :: rest)
      else none

/-- Parse the members of a JSON object (opening brace consumed, object known
to be nonempty). -/
def parseMembers : Nat → List (String × Json) → List Char →
    Option (Json × List Char)
  | 0, _, _ => none
  | fuel + 1, acc, cs =>
    match skipWs cs with
    | '"' :: rest =>
      match parseStringRest rest [] with
      | some (k, rest2) =>
        match skipWs rest2 with
        | ':' :: rest3 =>
          match parseValue fuel rest3 with
          | some (v, rest4) =>
            match skipWs rest4 with
            | ',' :: rest5 => parseMembers fuel (objInsert acc k v) rest5
            | '\x7d' :: rest5 => some (.obj (objInsert acc k v), rest5)
            | _ => none
          | none => none
        | _ => none
      | none => none
    | _ => none

/-- Parse the items of a JSON array (opening bracket consumed, array known to
be nonempty). -/
def parseItems : Nat → List Json → List Char → Option (Json × List Char)
  | 0, _, _ => none
  | fuel + 1, acc, cs =>
    match parseValue fuel cs with
    | some (v, rest) =>
      match skipWs rest with
      | ',' :: rest2 => parseItems fuel (acc ++ [v]) rest2
      | ']' :: rest2 => some (.arr (acc ++ [v]), rest2)
      | _ => none
    | none => none

end

/-- Parse a complete JSON document, as json.loads does: one value, then only
trailing whitespace.  Two units of fuel per character are always enough, since
every recursive descent first consumes at least one character. -/
def parseJson (s : String) : Option Json :=
  match parseValue (2 * s.length + 4) s.data with
  | some (j, rest) => if (skipWs rest).isEmpty then some j else none
  | none => none

/- ------------------------------------------------------------------ -/
/- The pure extraction pipeline (extractor.py lines 77-227). -/

/-- Lookup of one key within a JSON value, None when the value is not a dict
or lacks the key (the step condition of try_get_path, line 104). -/
def Json.getField (j : Json) (k : String) : Option Json :=
  match j with
  | .obj fields => objGet fields k
  | _ => none

/-- Embedding of try_get_path (lines 101-107): walk a fixed key path through
nested dicts, returning None when a step is not a dict or lacks the key.  The
final Python value is None also when the stored JSON value was null, so a null
leaf is conflated with a missed path. -/
def try_get_path (j : Json) (path : List String) : Option Json :=
  match path with
  | [] => jsonToPy (some j)
  | k :: rest =>
    match j.getField k with
    | some v => try_get_path v rest
    | none => none

mutual

/-- Embedding of find_key (lines 109-130): preorder depth-first search for the
first key-value pair satisfying the predicate; the matched key itself is
checked before descending into its value, siblings are visited in insertion
order, list items are traversed in order. -/
def find_key (j : Json) (p : String → Json → Bool) (path : String) :
    Option (String × Json) :=
  match j with
  | .obj fields => find_key_fields fields p path
  | .arr items => find_key_items items p path 0
  | _ => none
termination_by structural j

/-- Dict branch of find_key: lines 112-123. -/
def find_key_fields (fields : List (String × Json)) (p : String → Json → Bool)
    (path : String) : Option (String × Json) :=
  match fields with
  | [] => none
  | (k, v) :: rest =>
    let pth := if path = "" then k else path ++ "." ++ k
    if p k v then some (pth, v)
    else
      match find_key v p pth with
      | some r => some r
      | none => find_key_fields rest p path
termination_by structural fields

/-- List branch of find_key: lines 124-129. -/
def find_key_items (items : List Json) (p : String → Json → Bool)
    (path : String) (i : Nat) : Option (String × Json) :=
  match items with
  | [] => none
  | v :: rest =>
    let pth := path ++ "[" ++ toString i ++ "]"
    match find_key v p pth with
    | some r => some r
    | none => find_key_items rest p path (i + 1)
termination_by structural items

end

/-- Python str.lower, character by character (the keys compared in this
module are ASCII, where Char.toLower agrees with Python). -/
def strToLower (s : String) : String :=
  String.mk (s.data.map Char.toLower)

/-- Predicate of the poToken fallback search (line 147): key matches
"potoken" case-insensitively; the value is not constrained. -/
def potokenKeyPred (k : String) (_ : Json) : Bool :=
  strToLower k == "potoken"

/-- Predicate of the visitorData fallback search (lines 160-162): exact key
"visitorData" with a string value. -/
def visitorKeyPred (k : String) (v : Json) : Bool :=
  k == "visitorData" && v.isStr

/-- Canonical-path poToken lookup (lines 139-141): service_dims =
try_get_path(json, ["serviceIntegrityDimensions"]), then .get("poToken") when
it is a dict. -/
def potoken_canonical (j : Json) : Option Json :=
  match try_get_path j ["serviceIntegrityDimensions"] with
  | some (.obj fields) => pyGet fields "poToken"
  | _ => none

/-- Canonical-path visitorData lookup (lines 136-138). -/
def visitor_canonical (j : Json) : Option Json :=
  try_get_path j ["context", "client", "visitorData"]

/-- Resolution of the poToken field (lines 139-154): canonical path first;
when that yields None, the recursive case-insensitive key search, whose found
value is kept only when it is a string. -/
def resolve_potoken (j : Json) : Option Json :=
  match potoken_canonical j with
  | some v => some v
  | none =>
    match find_key j potokenKeyPred "" with
    | some (_, .str s) => some (.str s)
    | _ => none

/-- Resolution of the visitorData field (lines 136-138 and 156-169): canonical
path first; when that yields None, the recursive search for a string-valued
exact key. -/
def resolve_visitor_data (j : Json) : Option Json :=
  match visitor_canonical j with
  | some v => some v
  | none =>
    match find_key j visitorKeyPred "" with
    | some (_, v) => some v
    | none => none

/-- Credential produced by a successful extraction (the TokenInfo dataclass,
lines 16-25).  The Python fields are annotated str but never type-checked, so
they are Json values here. -/
structure TokenInfo where
  updated : Nat
  potoken : Json
  visitor_data : Json

/-- The three ways _extract_token declines to produce a credential: missing or
empty post body (lines 79-84), json.JSONDecodeError (lines 87-98), and fields
still unresolved after canonical and recursive lookups (lines 172-222).  The
Python function logs the distinguishing diagnostic and returns None in each
case. -/
inductive ExtractFailure where
  | EmptyBody
  | MalformedJson
  | FieldsMissing
deriving DecidableEq

/-- Final assembly of _extract_token after parsing (lines 132-227): resolve
both fields; if either is still None, fail (FieldsMissing branch, lines
172-222); otherwise build a TokenInfo stamped with the current time (lines
224-227). -/
def extract_from_json (j : Json) (now : Nat) : Except ExtractFailure TokenInfo :=
  match resolve_potoken j, resolve_visitor_data j with
  | some t, some v => .ok ⟨now, t, v⟩
  | _, _ => .error .FieldsMissing

/-- Embedding of the whole _extract_token (lines 77-227) as a function of the
request's post_data and the current time. -/
def extract_token (post_data : Option String) (now : Nat) :
    Except ExtractFailure TokenInfo :=
  match post_data with
  | none => .error .EmptyBody
  | some s =>
    if s = "" then .error .EmptyBody
    else
      match parseJson s with
      | none => .error .MalformedJson
      | some j => extract_from_json j now

/- ------------------------------------------------------------------ -/
/- The stateful controller (PotokenExtractor), as explicit state passing. -/

/-- Mutable state of one PotokenExtractor instance (lines 39-42), plus the
event loop's queue of callbacks scheduled by call_soon_threadsafe, modelled by
its length: pending_set counts scheduled-but-not-yet-run calls to
_update_requested.set. -/
structure ExtState where
  token_info : Option TokenInfo
  extraction_done : Bool
  update_requested : Bool
  ongoing_locked : Bool
  pending_set : Nat

/-- Fresh instance: no token, no events set, lock free, nothing scheduled. -/
def idle_state : ExtState :=
  { token_info := none, extraction_done := false, update_requested := false,
    ongoing_locked := false, pending_set := 0 }

/-- Embedding of request_update (lines 64-74).  Note the accepted branch does
not set _update_requested itself: it hands loop.call_soon_threadsafe a
callback that will set it on the next event-loop iteration. -/
def request_update (s : ExtState) : Bool × ExtState :=
  if s.ongoing_locked then (false, s)
  else if s.update_requested then (false, s)
  else (true, { s with pending_set := s.pending_set + 1 })

/-- One event-loop iteration running the callbacks scheduled through
call_soon_threadsafe: every scheduled _update_requested.set executes. -/
def run_pending_callbacks (s : ExtState) : ExtState :=
  if s.pending_set = 0 then s
  else { s with update_requested := true, pending_set := 0 }

/-- The fields of a nodriver RequestWillBeSent request that _send_handler
reads. -/
structure NetRequest where
  method : String
  url : Option String
  post_data : Option String

/-- Whether the needle matches at the head of the haystack. -/
def matchesAt : List Char → List Char → Bool
  | [], _ => true
  | _ :: _, [] => false
  | c :: cs, h :: hs => c == h && matchesAt cs hs

/-- Whether the haystack contains the needle as a contiguous run. -/
def hasSubList (needle : List Char) : List Char → Bool
  | [] => matchesAt needle []
  | h :: hs => matchesAt needle (h :: hs) || hasSubList needle hs

/-- Python's substring containment test (needle in hay). -/
def strContainsStr (hay needle : String) : Bool :=
  hasSubList needle.data hay.data

/-- Embedding of _send_handler (lines 357-383): ignore non-POST requests and
requests whose URL is falsy or outside the youtubei/v1/ namespace; otherwise
attempt extraction; on success, publish the credential and set the completion
signal.  No branch consults the signal before publishing. -/
def send_handler (s : ExtState) (req : NetRequest) (now : Nat) : ExtState :=
  if req.method != "POST" then s
  else
    match req.url with
    | none => s
    | some u =>
      if u = "" then s
      else if !strContainsStr u "youtubei/v1/" then s
      else
        match extract_token req.post_data now with
        | .error _ => s
        | .ok t => { s with token_info := some t, extraction_done := true }

/-- Fold of _send_handler over a sequence of timed network events. -/
def process_events (s : ExtState) : List (NetRequest × Nat) → ExtState
  | [] => s
  | (e, n) :: rest => process_events (send_handler s e n) rest

/-- Whether a request event makes _send_handler publish a credential: POST
method, a non-empty youtubei/v1/ URL, and a successful extraction. -/
def publishes (req : NetRequest) (now : Nat) : Bool :=
  req.method == "POST" &&
  (match req.url with
   | none => false
   | some u => u != "" && strContainsStr u "youtubei/v1/") &&
  (extract_token req.post_data now).toBool

/-- Exceptions that can leave _perform_update: asyncio.TimeoutError, the
re-raised FileNotFoundError of nodriver.start (lines 256-258), and errors of
the awaited browser operations (navigation, tab close). -/
inductive Exc where
  | timeoutError
  | fileNotFound
  | navigationError
  | closeError
deriving DecidableEq

/-- Behaviour of one awaited browser operation within an attempt: it returns,
it raises, or it stays pending past the hard ceiling (at which point
asyncio.wait_for in _update cancels the attempt). -/
inductive StepBehavior where
  | ok
  | raises
  | hangs
deriving DecidableEq

/-- Environment of one extraction session: behaviour of each awaited browser
step and the network events the tab delivers to the handlers during the embed
phase (navigation, interaction and the 15s wait) and during the fallback
phase.  Clicking is omitted: _click_on_player catches every click exception
itself (lines 301-336) and its outcome does not alter controller state. -/
structure SessionEnv where
  launch : StepBehavior
  nav_embed : StepBehavior
  embed_events : List (NetRequest × Nat)
  nav_watch : StepBehavior
  watch_events : List (NetRequest × Nat)
  close_tab : StepBehavior

/-- How one call of _perform_update ends: normal return, an exception leaving
the coroutine, or still pending when the hard ceiling fires (the wait_for in
_update then cancels it). -/
inductive SessionOutcome where
  | completed
  | raised (e : Exc)
  | hung
deriving DecidableEq

/-- Observable result of one _perform_update call: the controller state when
it ends (the async-with releases the lock on every path), how many times
tab.close() and browser.stop() ran, how many times the fallback navigation
was attempted, the completion waits performed, and the outcome. -/
structure SessionResult where
  state : ExtState
  tab_closes : Nat
  browser_stops : Nat
  fallback_navs : Nat
  waits : List Nat
  outcome : SessionOutcome

/-- Hard ceiling wrapped around each attempt (line 231). -/
def HARD_CEILING_TIMEOUT : Nat := 600

/-- Short completion wait on the embed path (line 276). -/
def SHORT_WAIT_TIMEOUT : Nat := 15

/-- Long completion wait on the fallback path (line 287). -/
def LONG_WAIT_TIMEOUT : Nat := 120

/-- Start of the locked session body (lines 242-244): the lock is held and
the completion signal cleared. -/
def session_enter (s : ExtState) : ExtState :=
  { s with ongoing_locked := true, extraction_done := false }

/-- Exit of the async-with block, on any path: the lock is released. -/
def session_release (s : ExtState) : ExtState :=
  { s with ongoing_locked := false }

/-- Embedding of _perform_update (lines 237-289).  The code runs: early
return if the lock is held; acquire the lock and clear the signal; start the
browser (FileNotFoundError re-raised, lines 251-258); navigate to the embed
URL; best-effort clicks; wait 15s on the signal, whose outcome is exactly
whether the events delivered so far set it; if not set, navigate to the watch
URL, click again, and wait 120s discarding the result (line 287); finally
close the tab and stop the browser.  There is no try/finally around the body:
close and stop run only when the body reaches its last two statements.  A
hanging step leaves the coroutine pending (outcome hung) with the effects
performed so far; the surrounding async-with still releases the lock when the
hard ceiling cancels the coroutine. -/
def perform_update (s : ExtState) (env : SessionEnv) : SessionResult :=
  if s.ongoing_locked then
    { state := s, tab_closes := 0, browser_stops := 0, fallback_navs := 0,
      waits := [], outcome := .completed }
  else
    let s0 := session_enter s
    match env.launch with
    | .raises =>
      { state := session_release s0, tab_closes := 0, browser_stops := 0,
        fallback_navs := 0, waits := [], outcome := .raised .fileNotFound }
    | .hangs =>
      { state := session_release s0, tab_closes := 0, browser_stops := 0,
        fallback_navs := 0, waits := [], outcome := .hung }
    | .ok =>
      match env.nav_embed with
      | .raises =>
        { state := session_release s0, tab_closes := 0, browser_stops := 0,
          fallback_navs := 0, waits := [], outcome := .raised .navigationError }
      | .hangs =>
        { state := session_release s0, tab_closes := 0, browser_stops := 0,
          fallback_navs := 0, waits := [], outcome := .hung }
      | .ok =>
        let s1 := process_events s0 env.embed_events
        if s1.extraction_done then
          match env.close_tab with
          | .raises =>
            { state := session_release s1, tab_closes := 0, browser_stops := 0,
              fallback_navs := 0, waits := [SHORT_WAIT_TIMEOUT],
              outcome := .raised .closeError }
          | .hangs =>
            { state := session_release s1, tab_closes := 0, browser_stops := 0,
              fallback_navs := 0, waits := [SHORT_WAIT_TIMEOUT],
              outcome := .hung }
          | .ok =>
            { state := session_release s1, tab_closes := 1, browser_stops := 1,
              fallback_navs := 0, waits := [SHORT_WAIT_TIMEOUT],
              outcome := .completed }
        else
          match env.nav_watch with
          | .raises =>
            { state := session_release s1, tab_closes := 0, browser_stops := 0,
              fallback_navs := 1, waits := [SHORT_WAIT_TIMEOUT],
              outcome := .raised .navigationError }
          | .hangs =>
            { state := session_release s1, tab_closes := 0, browser_stops := 0,
              fallback_navs := 1, waits := [SHORT_WAIT_TIMEOUT],
              outcome := .hung }
          | .ok =>
            let s2 := process_events s1 env.watch_events
            match env.close_tab with
            | .raises =>
              { state := session_release s2, tab_closes := 0,
                browser_stops := 0, fallback_navs := 1,
                waits := [SHORT_WAIT_TIMEOUT, LONG_WAIT_TIMEOUT],
                outcome := .raised .closeError }
            | .hangs =>
              { state := session_release s2, tab_closes := 0,
                browser_stops := 0, fallback_navs := 1,
                waits := [SHORT_WAIT_TIMEOUT, LONG_WAIT_TIMEOUT],
                outcome := .hung }
            | .ok =>
              { state := session_release s2, tab_closes := 1,
                browser_stops := 1, fallback_navs := 1,
                waits := [SHORT_WAIT_TIMEOUT, LONG_WAIT_TIMEOUT],
                outcome := .completed }

/-- Embedding of _update (lines 229-235): wrap one attempt in the hard
ceiling; asyncio.TimeoutError (a pending attempt cancelled at the ceiling, or
a TimeoutError raised by the body) is caught and logged as an operator error
(the Bool); any other exception propagates. -/
def update (s : ExtState) (env : SessionEnv) : Except Exc (ExtState × Bool) :=
  let r := perform_update s env
  match r.outcome with
  | .completed => .ok (r.state, false)
  | .hung => .ok (r.state, true)
  | .raised e => if e = .timeoutError then .ok (r.state, true) else .error e

/-- Loop body of run (lines 53-62): each iteration waits for the forced-update
event or the interval (timing only, not modelled), performs one update, then
clears the forced-update event. -/
def run_loop (s : ExtState) : List SessionEnv → Except Exc ExtState
  | [] => .ok s
  | env :: rest =>
    match update s env with
    | .error e => .error e
    | .ok (s1, _) => run_loop { s1 with update_requested := false } rest

/-- Embedding of run (lines 51-62): one initial update, then the loop, each
iteration driven by the session environment of that attempt.  An exception
escaping an update escapes run. -/
def run_model (s : ExtState) (env0 : SessionEnv) (envs : List SessionEnv) :
    Except Exc ExtState :=
  match update s env0 with
  | .error e => .error e
  | .ok (s1, _) => run_loop s1 envs

/- ------------------------------------------------------------------ -/
/- Derived and comparison definitions used by the theorems. -/

mutual

/-- Preorder enumeration of all key-value pairs of a JSON structure, in the
traversal order of find_key: a dict key before its value's descendants,
siblings in insertion order, list items in order.  Used to characterise
find_key as a first-match search over a deterministic sequence. -/
def dfs_entries (j : Json) : List (String × Json) :=
  match j with
  | .obj fields => dfs_entries_fields fields
  | .arr items => dfs_entries_items items
  | _ => []
termination_by structural j

/-- Preorder enumeration for a dict's field list. -/
def dfs_entries_fields (fields : List (String × Json)) :
    List (String × Json) :=
  match fields with
  | [] => []
  | (k, v) :: rest => (k, v) :: (dfs_entries v ++ dfs_entries_fields rest)
termination_by structural fields

/-- Preorder enumeration for a list's items. -/
def dfs_entries_items (items : List Json) : List (String × Json) :=
  match items with
  | [] => []
  | v :: rest => dfs_entries v ++ dfs_entries_items rest
termination_by structural items

end

/-- Extraction restricted to the canonical paths, with the recursive fallback
searches removed.  Comparison definition: agreement with extract_from_json
shows the fallback was not consulted. -/
def extract_canonical_only (j : Json) (now : Nat) :
    Except ExtractFailure TokenInfo :=
  match potoken_canonical j, visitor_canonical j with
  | some t, some v => .ok ⟨now, t, v⟩
  | _, _ => .error .FieldsMissing

/-- Modelled from the spec sentence "perform a recursive case-insensitive key
search across the entire parsed structure for a key matching the token's
field name; accept the first string-valued match found": the poToken fallback
restricted to string-valued matches, stated for comparison with the code's
resolve_potoken. -/
def resolve_potoken_specworded (j : Json) : Option Json :=
  match potoken_canonical j with
  | some v => some v
  | none =>
    match find_key j (fun k v => potokenKeyPred k v && v.isStr) "" with
    | some (_, v) => some v
    | none => none

/-- Parsed payload whose first key matching "potoken" case-insensitively (in
find_key traversal order) holds a non-string value, while a later key holds a
string; the token is absent at the canonical path. -/
def c2_payload : Json :=
  .obj [("context", .obj [("client", .obj [("visitorData", .str "V")])]),
        ("adSignals", .obj [("POTOKEN", .bool true)]),
        ("integrity", .obj [("poToken", .str "T2")])]

/-- Parsed payload whose only key matching "potoken" case-insensitively is
string-valued, nested under an unexpected path (inside a list), with the
token absent at the canonical path. -/
def c2_unique_payload : Json :=
  .obj [("context", .obj [("client", .obj [("visitorData", .str "VW")])]),
        ("deep", .arr [.obj [("PoToken", .str "TW")]])]

/-- The spec's example request body, braces written via hex escapes; the
content is
{"context":{"client":{"visitorData":"V1"}},"serviceIntegrityDimensions":{"poToken":"T1"}}. -/
def example_body : String :=
  "\x7b\"context\":\x7b\"client\":\x7b\"visitorData\":\"V1\"\x7d\x7d,\"serviceIntegrityDimensions\":\x7b\"poToken\":\"T1\"\x7d\x7d"

/-- Parsed form of example_body. -/
def example_json : Json :=
  .obj [("context", .obj [("client", .obj [("visitorData", .str "V1")])]),
        ("serviceIntegrityDimensions", .obj [("poToken", .str "T1")])]

/-- A request body whose canonical-path values are not strings:
{"context":{"client":{"visitorData":{"x":true}}},"serviceIntegrityDimensions":{"poToken":false}}. -/
def nonstring_body : String :=
  "\x7b\"context\":\x7b\"client\":\x7b\"visitorData\":\x7b\"x\":true\x7d\x7d\x7d,\"serviceIntegrityDimensions\":\x7b\"poToken\":false\x7d\x7d"

/-- Parsed form of nonstring_body. -/
def nonstring_json : Json :=
  .obj [("context", .obj [("client", .obj [("visitorData",
          .obj [("x", .bool true)])])]),
        ("serviceIntegrityDimensions", .obj [("poToken", .bool false)])]

/-- A second request body with different credential values:
{"context":{"client":{"visitorData":"V2"}},"serviceIntegrityDimensions":{"poToken":"T2"}}. -/
def example_body_2 : String :=
  "\x7b\"context\":\x7b\"client\":\x7b\"visitorData\":\"V2\"\x7d\x7d,\"serviceIntegrityDimensions\":\x7b\"poToken\":\"T2\"\x7d\x7d"

/-- A player-endpoint POST carrying example_body. -/
def req_v1 : NetRequest :=
  ⟨"POST", some "https://www.youtube.com/youtubei/v1/player", some example_body⟩

/-- A player-endpoint POST carrying example_body_2. -/
def req_v2 : NetRequest :=
  ⟨"POST", some "https://www.youtube.com/youtubei/v1/player", some example_body_2⟩

/-- A controller state holding a previously extracted credential. -/
def c6_start : ExtState :=
  { idle_state with token_info := some ⟨1, .str "OLD", .str "OLDV"⟩ }

/-- Session environment where a credential is captured during the embed phase
but the tab close hangs until the hard ceiling cancels the attempt. -/
def c6_env : SessionEnv :=
  { launch := .ok, nav_embed := .ok, embed_events := [(req_v1, 5)],
    nav_watch := .ok, watch_events := [], close_tab := .hangs }

/-- Session environment with no events where the tab close hangs until the
hard ceiling cancels the attempt: a failed attempt that raises nothing. -/
def c6_hang_env : SessionEnv :=
  { launch := .ok, nav_embed := .ok, embed_events := [],
    nav_watch := .ok, watch_events := [], close_tab := .hangs }

/-- Session environment where the browser launch raises FileNotFoundError. -/
def c7_launch_fail_env : SessionEnv :=
  { launch := .raises, nav_embed := .ok, embed_events := [],
    nav_watch := .ok, watch_events := [], close_tab := .ok }

/-- Session environment where the embed navigation raises after the browser
was obtained. -/
def c8_nav_fail_env : SessionEnv :=
  { launch := .ok, nav_embed := .raises, embed_events := [],
    nav_watch := .ok, watch_events := [], close_tab := .ok }

/-- Session environment where every browser step returns and no network event
produces a credential. -/
def c9_all_ok_env : SessionEnv :=
  { launch := .ok, nav_embed := .ok, embed_events := [],
    nav_watch := .ok, watch_events := [], close_tab := .ok }

/-- Whether no awaited step of the session raises an exception (it may still
hang into the hard ceiling). -/
def SessionEnv.raisefree (env : SessionEnv) : Bool :=
  env.launch != .raises && env.nav_embed != .raises &&
  env.nav_watch != .raises && env.close_tab != .raises

/- ------------------------------------------------------------------ -/
/- Helper lemmas. -/

/-- A two-step try_get_path through the dimensions object is exactly what the
code computes at lines 139-141: the dict at the first key, then .get of the
second. -/
theorem potoken_canonical_of_path {j t : Json}
    (h : try_get_path j ["serviceIntegrityDimensions", "poToken"] = some t) :
    potoken_canonical j = some t := by
  rw [try_get_path] at h
  cases hg : j.getField "serviceIntegrityDimensions" with
  | none => simp only [hg] at h; exact Option.noConfusion h
  | some d =>
    simp only [hg] at h
    rw [try_get_path] at h
    cases hg2 : d.getField "poToken" with
    | none => simp only [hg2] at h; exact Option.noConfusion h
    | some w =>
      simp only [hg2] at h
      rw [try_get_path] at h
      cases d with
      | obj f2 =>
        cases j with
        | obj fields =>
          simp only [Json.getField] at hg hg2
          simp only [potoken_canonical, try_get_path, Json.getField, hg,
            jsonToPy, pyGet, hg2]
          exact h
        | null => simp [Json.getField] at hg
        | bool b => simp [Json.getField] at hg
        | num n => simp [Json.getField] at hg
        | str s => simp [Json.getField] at hg
        | arr xs => simp [Json.getField] at hg
      | null => simp [Json.getField] at hg2
      | bool b => simp [Json.getField] at hg2
      | num n => simp [Json.getField] at hg2
      | str s => simp [Json.getField] at hg2
      | arr xs => simp [Json.getField] at hg2

/-- A canonical hit short-circuits the poToken fallback (line 144 guard). -/
theorem resolve_potoken_of_canonical {j t : Json}
    (h : potoken_canonical j = some t) : resolve_potoken j = some t := by
  simp [resolve_potoken, h]

/-- A canonical hit short-circuits the visitorData fallback (line 157
guard). -/
theorem resolve_visitor_of_canonical {j v : Json}
    (h : visitor_canonical j = some v) : resolve_visitor_data j = some v := by
  simp [resolve_visitor_data, h]

/-- The empty body does not parse. -/
theorem parseJson_empty_eq : parseJson "" = none := rfl

/-- Core success lemma: canonical-path hits of any JSON type flow verbatim
into the credential. -/
theorem extract_token_of_canonical (s : String) (j V T : Json) (now : Nat)
    (hp : parseJson s = some j)
    (hv : try_get_path j ["context", "client", "visitorData"] = some V)
    (ht : try_get_path j ["serviceIntegrityDimensions", "poToken"] = some T) :
    extract_token (some s) now = .ok ⟨now, T, V⟩ := by
  have hs : s ≠ "" := by
    intro he
    rw [he, parseJson_empty_eq] at hp
    exact Option.noConfusion hp
  have hres_t : resolve_potoken j = some T :=
    resolve_potoken_of_canonical (potoken_canonical_of_path ht)
  have hres_v : resolve_visitor_data j = some V :=
    resolve_visitor_of_canonical hv
  simp only [extract_token, if_neg hs, hp]
  simp only [extract_from_json, hres_t, hres_v]

/-- With both canonical paths populated, the full pipeline coincides with the
fallback-free pipeline. -/
theorem extract_from_json_eq_canonical (j V T : Json) (now : Nat)
    (hv : try_get_path j ["context", "client", "visitorData"] = some V)
    (ht : try_get_path j ["serviceIntegrityDimensions", "poToken"] = some T) :
    extract_from_json j now = extract_canonical_only j now := by
  have hc : potoken_canonical j = some T := potoken_canonical_of_path ht
  simp only [extract_from_json, extract_canonical_only, hc, hv,
    resolve_potoken_of_canonical hc, resolve_visitor_of_canonical hv,
    visitor_canonical]

/-- An unresolved field after both lookup stages yields the FieldsMissing
branch. -/
theorem fields_missing_of_unresolved (j : Json) (now : Nat)
    (h : resolve_potoken j = none ∨ resolve_visitor_data j = none) :
    extract_from_json j now = .error .FieldsMissing := by
  rcases h with h | h
  · cases hv : resolve_visitor_data j <;> simp [extract_from_json, h, hv]
  · cases ht : resolve_potoken j <;> simp [extract_from_json, h, ht]

mutual

/-- The recursive search agrees, on found values, with a first-match scan of
the preorder enumeration: find_key is a deterministic depth-first search. -/
theorem find_key_dfs (j : Json) (p : String → Json → Bool) (path : String) :
    (find_key j p path).map Prod.snd =
    ((dfs_entries j).find? fun kv => p kv.1 kv.2).map Prod.snd := by
  cases j with
  | obj fields =>
    rw [find_key, dfs_entries]
    exact find_key_fields_dfs fields p path
  | arr items =>
    rw [find_key, dfs_entries]
    exact find_key_items_dfs items p path 0
  | null => rfl
  | bool b => rfl
  | num n => rfl
  | str s => rfl
termination_by structural j

/-- Dict case of find_key_dfs. -/
theorem find_key_fields_dfs (fields : List (String × Json))
    (p : String → Json → Bool) (path : String) :
    (find_key_fields fields p path).map Prod.snd =
    ((dfs_entries_fields fields).find? fun kv => p kv.1 kv.2).map Prod.snd := by
  cases fields with
  | nil => rw [find_key_fields, dfs_entries_fields]; simp
  | cons hd rest =>
    obtain ⟨k, v⟩ := hd
    rw [find_key_fields, dfs_entries_fields]
    by_cases hp : p k v = true
    · simp [hp, List.find?_cons_of_pos]
    · have hp2 : p (k, v).1 (k, v).2 = false := by
        simpa using Bool.eq_false_iff.mpr hp
      rw [List.find?_cons_of_neg _ (by simpa using hp2)]
      rw [List.find?_append]
      simp only [hp, if_false]
      have ih1 := find_key_dfs v p (if path = "" then k else path ++ "." ++ k)
      have ih2 := find_key_fields_dfs rest p path
      cases hfk : find_key v p (if path = "" then k else path ++ "." ++ k) with
      | some r =>
        rw [hfk] at ih1
        cases hdf : (dfs_entries v).find? (fun kv => p kv.1 kv.2) with
        | none => rw [hdf] at ih1; simp at ih1
        | some kv =>
          rw [hdf] at ih1
          simp only [Option.map_some] at ih1 ⊢
          simp [Option.or, ih1]
      | none =>
        rw [hfk] at ih1
        cases hdf : (dfs_entries v).find? (fun kv => p kv.1 kv.2) with
        | none => rw [hdf] at ih1; simpa [Option.or] using ih2
        | some kv => rw [hdf] at ih1; simp at ih1
termination_by structural fields

/-- List case of find_key_dfs. -/
theorem find_key_items_dfs (items : List Json) (p : String → Json → Bool)
    (path : String) (i : Nat) :
    (find_key_items items p path i).map Prod.snd =
    ((dfs_entries_items items).find? fun kv => p kv.1 kv.2).map Prod.snd := by
  cases items with
  | nil => rw [find_key_items, dfs_entries_items]; simp
  | cons v rest =>
    rw [find_key_items, dfs_entries_items]
    rw [List.find?_append]
    have ih1 := find_key_dfs v p (path ++ "[" ++ toString i ++ "]")
    have ih2 := find_key_items_dfs rest p path (i + 1)
    cases hfk : find_key v p (path ++ "[" ++ toString i ++ "]") with
    | some r =>
      rw [hfk] at ih1
      cases hdf : (dfs_entries v).find? (fun kv => p kv.1 kv.2) with
      | none => rw [hdf] at ih1; simp at ih1
      | some kv =>
        rw [hdf] at ih1
        simp only [Option.map_some] at ih1 ⊢
        simp [Option.or, ih1]
    | none =>
      rw [hfk] at ih1
      cases hdf : (dfs_entries v).find? (fun kv => p kv.1 kv.2) with
      | none => rw [hdf] at ih1; simpa [Option.or] using ih2
      | some kv => rw [hdf] at ih1; simp at ih1
termination_by structural items

end

/- ------------------------------------------------------------------ -/
/- Claim theorems. -/

/-- C1: a request body that parses to a JSON object holding string values at
the canonical paths context.client.visitorData and
serviceIntegrityDimensions.poToken extracts to a credential carrying exactly
those two values, stamped with the current time. -/
theorem C1_canonical_extraction (s : String) (j : Json) (V T : String)
    (now : Nat) (hp : parseJson s = some j)
    (hv : try_get_path j ["context", "client", "visitorData"] =
      some (.str V))
    (ht : try_get_path j ["serviceIntegrityDimensions", "poToken"] =
      some (.str T)) :
    extract_token (some s) now = .ok ⟨now, .str T, .str V⟩ :=
  extract_token_of_canonical s j (.str V) (.str T) now hp hv ht

/-- Witness for C1 at the spec's own example body: extraction yields
potoken "T1" and visitor_data "V1". -/
theorem C1_canonical_extraction_witness :
    extract_token (some example_body) 42 = .ok ⟨42, .str "T1", .str "V1"⟩ :=
  C1_canonical_extraction example_body example_json "V1" "T1" 42 rfl rfl rfl

/-- C3: an absent or empty body fails with EmptyBody; a body that does not
parse fails with MalformedJson ('not json' in particular); parsed JSON with a
field unresolved after canonical and recursive lookups fails with
FieldsMissing ('{}' in particular); the three failures are distinct values
and a failing extraction returns no credential. -/
theorem C3_failure_taxonomy :
    (∀ now, extract_token none now = .error .EmptyBody) ∧
    (∀ now, extract_token (some "") now = .error .EmptyBody) ∧
    (∀ s now, s ≠ "" → parseJson s = none →
       extract_token (some s) now = .error .MalformedJson) ∧
    (∀ j now, resolve_potoken j = none ∨ resolve_visitor_data j = none →
       extract_from_json j now = .error .FieldsMissing) ∧
    (∀ now, extract_token (some "not json") now = .error .MalformedJson) ∧
    (∀ now, extract_token (some "\x7b\x7d") now = .error .FieldsMissing) ∧
    (ExtractFailure.EmptyBody ≠ ExtractFailure.MalformedJson ∧
     ExtractFailure.EmptyBody ≠ ExtractFailure.FieldsMissing ∧
     ExtractFailure.MalformedJson ≠ ExtractFailure.FieldsMissing) ∧
    (∀ pd now e t, extract_token pd now = .error e →
       extract_token pd now ≠ .ok t) := by
  refine ⟨fun _ => rfl, fun _ => rfl, ?_, fields_missing_of_unresolved,
    fun _ => rfl, fun _ => rfl, by decide, ?_⟩
  · intro s now hs hp
    simp only [extract_token, if_neg hs, hp]
  · intro pd now e t he hok
    rw [he] at hok
    exact Except.noConfusion hok

/-- Witness for C3: the universally quantified failure branches instantiated
at concrete inputs. -/
theorem C3_failure_taxonomy_witness :
    extract_token (some "abc") 0 = .error .MalformedJson ∧
    extract_from_json (.obj []) 0 = .error .FieldsMissing :=
  ⟨C3_failure_taxonomy.2.2.1 "abc" 0 (by decide) rfl,
   C3_failure_taxonomy.2.2.2.1 (.obj []) 0 (Or.inl rfl)⟩

/-- C10: no type validation happens at the canonical paths — any non-null
values found there (nullness is already conflated away by the lookup itself)
flow verbatim into the credential, and the recursive fallback is not
consulted (the pipeline agrees with the fallback-free pipeline). -/
theorem C10_no_type_validation (s : String) (j V T : Json) (now : Nat)
    (hp : parseJson s = some j)
    (hv : try_get_path j ["context", "client", "visitorData"] = some V)
    (ht : try_get_path j ["serviceIntegrityDimensions", "poToken"] = some T) :
    extract_token (some s) now = .ok ⟨now, T, V⟩ ∧
    extract_from_json j now = extract_canonical_only j now :=
  ⟨extract_token_of_canonical s j V T now hp hv ht,
   extract_from_json_eq_canonical j V T now hv ht⟩

/-- Witness for C10: a body whose canonical values are an object and a
boolean still extracts, carrying the non-string values verbatim. -/
theorem C10_no_type_validation_witness :
    extract_token (some nonstring_body) 7 =
      .ok ⟨7, .bool false, .obj [("x", .bool true)]⟩ ∧
    extract_from_json nonstring_json 7 = extract_canonical_only nonstring_json 7 :=
  C10_no_type_validation nonstring_body nonstring_json
    (.obj [("x", .bool true)]) (.bool false) 7 rfl rfl rfl

/-- C2 counterexample: in c2_payload the token is absent at the canonical
path, a string-valued case-insensitive key match exists ("integrity.poToken"
with value "T2", the value the claim says the fallback accepts, as the
spec-worded resolver confirms), and the visitor identifier resolves — yet the
code's fallback takes the earlier non-string match "adSignals.POTOKEN",
resolves nothing, and extraction fails with FieldsMissing instead of
returning the credential the claim requires. -/
theorem C2_counterexample :
    potoken_canonical c2_payload = none ∧
    resolve_visitor_data c2_payload = some (.str "V") ∧
    find_key c2_payload (fun k v => potokenKeyPred k v && v.isStr) "" =
      some ("integrity.poToken", .str "T2") ∧
    resolve_potoken_specworded c2_payload = some (.str "T2") ∧
    find_key c2_payload potokenKeyPred "" =
      some ("adSignals.POTOKEN", .bool true) ∧
    resolve_potoken c2_payload = none ∧
    extract_from_json c2_payload 0 = .error .FieldsMissing :=
  ⟨rfl, rfl, rfl, rfl, rfl, rfl, rfl⟩

/-- C2 amended: when the token is absent at the canonical path, the fallback
takes the FIRST key match (case-insensitive) of the deterministic depth-first
enumeration and uses its value only if that value is a string — a non-string
first match leaves the token unresolved even when a later string-valued match
exists; in particular a payload whose first (e.g. unique) matching key is
string-valued under an unexpected path extracts to that value. -/
theorem C2_recursive_fallback_amended :
    (∀ j, potoken_canonical j = none →
       resolve_potoken j =
         (match ((dfs_entries j).find? fun kv => potokenKeyPred kv.1 kv.2) with
          | some (_, .str s2) => some (.str s2)
          | _ => none)) ∧
    (∀ j now V s2, potoken_canonical j = none →
       resolve_visitor_data j = some V →
       (∃ k, ((dfs_entries j).find? fun kv => potokenKeyPred kv.1 kv.2) =
          some (k, .str s2)) →
       extract_from_json j now = .ok ⟨now, .str s2, V⟩) := by
  have main : ∀ j, potoken_canonical j = none →
      resolve_potoken j =
        (match ((dfs_entries j).find? fun kv => potokenKeyPred kv.1 kv.2) with
         | some (_, .str s2) => some (.str s2)
         | _ => none) := by
    intro j h
    have hd := find_key_dfs j potokenKeyPred ""
    cases hfk : find_key j potokenKeyPred "" with
    | none =>
      rw [hfk] at hd
      cases hdf : (dfs_entries j).find? fun kv => potokenKeyPred kv.1 kv.2 with
      | none => simp [resolve_potoken, h, hfk, hdf]
      | some kv => rw [hdf] at hd; simp at hd
    | some r =>
      rw [hfk] at hd
      cases hdf : (dfs_entries j).find? fun kv => potokenKeyPred kv.1 kv.2 with
      | none => rw [hdf] at hd; simp at hd
      | some kv =>
        rw [hdf] at hd
        obtain ⟨rp, rv⟩ := r
        obtain ⟨kk, kvv⟩ := kv
        simp at hd
        subst hd
        cases rv <;> simp [resolve_potoken, h, hfk, hdf]
  refine ⟨main, ?_⟩
  intro j now V s2 h hv hex
  obtain ⟨k, hk⟩ := hex
  have hres : resolve_potoken j = some (.str s2) := by
    rw [main j h, hk]
  simp only [extract_from_json, hres, hv]

/-- Witness for C2's amended claim: in c2_unique_payload the unique matching
key "PoToken", nested inside a list, is string-valued and extraction returns
its value "TW". -/
theorem C2_recursive_fallback_amended_witness :
    extract_from_json c2_unique_payload 3 = .ok ⟨3, .str "TW", .str "VW"⟩ :=
  C2_recursive_fallback_amended.2 c2_unique_payload 3 (.str "VW") "TW"
    rfl rfl ⟨"PoToken", rfl⟩

/-- C4 counterexample: two request_update calls in immediate succession from
the idle state (no event-loop iteration in between) BOTH return true, because
the accepted call only schedules _update_requested.set through
call_soon_threadsafe and the flag is still clear when the second call checks
it — the claim requires the second call to return false. -/
theorem C4_counterexample :
    (request_update idle_state).1 = true ∧
    (request_update (request_update idle_state).2).1 = true :=
  ⟨rfl, rfl⟩

/-- C4 amended: request_update returns false without effect while a refresh
holds the lock or the forced-refresh flag is already set; otherwise it
returns true and schedules the flag to be set on the event loop, so the flag
is still unset right after the call, and a second call returns false only
once the event loop has run the scheduled callback. -/
theorem C4_request_update_amended :
    (∀ s, s.ongoing_locked = true → request_update s = (false, s)) ∧
    (∀ s, s.update_requested = true → request_update s = (false, s)) ∧
    (∀ s, s.ongoing_locked = false → s.update_requested = false →
       request_update s = (true, { s with pending_set := s.pending_set + 1 }) ∧
       (request_update s).2.update_requested = false ∧
       (request_update (run_pending_callbacks (request_update s).2)).1 =
         false) := by
  refine ⟨?_, ?_, ?_⟩
  · intro s h; simp [request_update, h]
  · intro s h; cases hl : s.ongoing_locked <;> simp [request_update, hl, h]
  · intro s h1 h2
    refine ⟨by simp [request_update, h1, h2], ?_, ?_⟩
    · simp [request_update, h1, h2]
    · simp [request_update, run_pending_callbacks, h1, h2]

/-- Witness for C4's amended claim at the idle state: the first call is
accepted, and after the loop runs the scheduled callback the next call is
refused. -/
theorem C4_request_update_amended_witness :
    request_update idle_state = (true, { idle_state with pending_set := 1 }) ∧
    (request_update (run_pending_callbacks (request_update idle_state).2)).1 =
      false :=
  ⟨(C4_request_update_amended.2.2 idle_state rfl rfl).1,
   (C4_request_update_amended.2.2 idle_state rfl rfl).2.2⟩

/-- A matching request whose extraction succeeds makes _send_handler publish
the credential and set the signal, whatever the prior state. -/
theorem send_handler_of_publishes (s : ExtState) (req : NetRequest) (now : Nat)
    (t : TokenInfo) (hok : extract_token req.post_data now = .ok t)
    (hp : publishes req now = true) :
    send_handler s req now =
      { s with token_info := some t, extraction_done := true } := by
  unfold publishes at hp
  unfold send_handler
  cases hm : req.method == "POST" with
  | false => rw [hm] at hp; simp at hp
  | true =>
    simp only [hm, Bool.true_and] at hp
    simp only [bne, hm, Bool.not_true, Bool.false_eq_true, if_false]
    cases hu : req.url with
    | none => rw [hu] at hp; simp at hp
    | some u =>
      rw [hu] at hp
      simp only at hp
      dsimp only
      by_cases hne : u = ""
      · subst hne; simp at hp
      · have he : (u == "") = false := by simp [hne]
        rw [if_neg hne]
        simp only [bne, he, Bool.not_false, Bool.true_and] at hp
        cases hc : strContainsStr u "youtubei/v1/" with
        | false => rw [hc] at hp; simp at hp
        | true =>
          simp only [hc, Bool.not_true, Bool.false_eq_true, if_false]
          rw [hok]

/-- An event that does not pass the filters or whose extraction fails leaves
the state untouched. -/
theorem send_handler_of_not_publishes (s : ExtState) (req : NetRequest)
    (now : Nat) (hp : publishes req now = false) :
    send_handler s req now = s := by
  unfold publishes at hp
  unfold send_handler
  cases hm : req.method == "POST" with
  | false => simp [bne, hm]
  | true =>
    simp only [hm, Bool.true_and] at hp
    simp only [bne, hm, Bool.not_true, Bool.false_eq_true, if_false]
    cases hu : req.url with
    | none => simp
    | some u =>
      rw [hu] at hp
      simp only at hp
      dsimp only
      by_cases hne : u = ""
      · rw [if_pos hne]
      · have he : (u == "") = false := by simp [hne]
        rw [if_neg hne]
        simp only [bne, he, Bool.not_false, Bool.true_and] at hp
        cases hc : strContainsStr u "youtubei/v1/" with
        | false => simp [hc]
        | true =>
          rw [hc] at hp
          simp only [Bool.true_and] at hp
          simp only [hc, Bool.not_true, Bool.false_eq_true, if_false]
          cases hex : extract_token req.post_data now with
          | error e => rfl
          | ok t => rw [hex] at hp; simp [Except.toBool] at hp

/-- C5 counterexample: within one session, after a first successful
extraction sets the signal and publishes ⟨5, "T1", "V1"⟩, a second matching
request is NOT ignored — the handler overwrites the stored credential with
⟨9, "T2", "V2"⟩, contradicting the claim that neither the stored credential
nor the signal changes once the signal is set. -/
theorem C5_counterexample :
    (send_handler (session_enter idle_state) req_v1 5).extraction_done = true ∧
    (send_handler (session_enter idle_state) req_v1 5).token_info =
      some ⟨5, .str "T1", .str "V1"⟩ ∧
    (send_handler (send_handler (session_enter idle_state) req_v1 5)
        req_v2 9).extraction_done = true ∧
    (send_handler (send_handler (session_enter idle_state) req_v1 5)
        req_v2 9).token_info = some ⟨9, .str "T2", .str "V2"⟩ ∧
    (some (⟨9, .str "T2", .str "V2"⟩ : TokenInfo) ≠
      some (⟨5, .str "T1", .str "V1"⟩ : TokenInfo)) :=
  ⟨rfl, rfl, rfl, rfl, by simp⟩

/-- C5 amended: the completion signal is reset at the session's start and set
by every successful extraction, which atomically publishes the credential;
the signal, once set, stays set for the rest of the session, and
non-publishing events change nothing — but subsequent matching successful
requests are not ignored: each one overwrites the stored credential. -/
theorem C5_completion_signal_amended :
    (∀ s, (session_enter s).extraction_done = false) ∧
    (∀ s req now, s.extraction_done = true →
       (send_handler s req now).extraction_done = true) ∧
    (∀ s req now, publishes req now = false → send_handler s req now = s) ∧
    (∀ s req now t, extract_token req.post_data now = .ok t →
       publishes req now = true →
       send_handler s req now =
         { s with token_info := some t, extraction_done := true }) := by
  refine ⟨fun _ => rfl, ?_, send_handler_of_not_publishes,
    send_handler_of_publishes⟩
  intro s req now h
  cases hp : publishes req now with
  | false => rw [send_handler_of_not_publishes s req now hp]; exact h
  | true =>
    have hb : (extract_token req.post_data now).toBool = true := by
      unfold publishes at hp
      simp [Bool.and_eq_true] at hp
      exact hp.2
    cases hex : extract_token req.post_data now with
    | error e => rw [hex] at hb; simp [Except.toBool] at hb
    | ok t => rw [send_handler_of_publishes s req now t hex hp]

/-- Witness for C5's amended claim: a fresh session starts with the signal
clear, and the first successful event publishes and sets it. -/
theorem C5_completion_signal_amended_witness :
    (send_handler (session_enter idle_state) req_v1 5).extraction_done = true ∧
    send_handler (session_enter idle_state) req_v1 5 =
      { session_enter idle_state with
          token_info := some ⟨5, .str "T1", .str "V1"⟩,
          extraction_done := true } :=
  ⟨by
    rw [C5_completion_signal_amended.2.2.2 (session_enter idle_state) req_v1 5
      ⟨5, .str "T1", .str "V1"⟩ rfl rfl],
   C5_completion_signal_amended.2.2.2 (session_enter idle_state) req_v1 5
      ⟨5, .str "T1", .str "V1"⟩ rfl rfl⟩

/-- A sequence of events none of which publishes leaves the state exactly as
it was. -/
theorem process_events_id (s : ExtState) (evts : List (NetRequest × Nat))
    (h : ∀ e ∈ evts, publishes e.1 e.2 = false) : process_events s evts = s := by
  induction evts generalizing s with
  | nil => rfl
  | cons hd rest ih =>
    obtain ⟨e, n⟩ := hd
    rw [process_events]
    rw [send_handler_of_not_publishes s e n (h (e, n) (by simp))]
    exact ih s fun e2 he => h e2 (by simp [he])

/-- No attempt path modifies the stored credential when no delivered event
publishes one — abandonment included. -/
theorem perform_update_token_info (s : ExtState) (env : SessionEnv)
    (h : ∀ e ∈ env.embed_events ++ env.watch_events, publishes e.1 e.2 = false) :
    (perform_update s env).state.token_info = s.token_info := by
  have hemb : ∀ st, process_events st env.embed_events = st := fun st =>
    process_events_id st _ fun e he => h e (List.mem_append_left _ he)
  have hwch : ∀ st, process_events st env.watch_events = st := fun st =>
    process_events_id st _ fun e he => h e (List.mem_append_right _ he)
  unfold perform_update
  by_cases hl : s.ongoing_locked
  · rw [if_pos hl]
  · rw [if_neg hl]
    cases env.launch <;> cases env.nav_embed <;> cases env.nav_watch <;>
      cases env.close_tab <;>
      simp [hemb, hwch, session_enter, session_release]

/-- C6 counterexample: an attempt that publishes a credential during the
embed phase and then hangs in tab.close until the hard ceiling is abandoned
(outcome hung, operator error logged, no exception), yet the value get()
returns HAS changed from the prior credential — the claim says the abandoned
attempt leaves it untouched. -/
theorem C6_counterexample :
    (perform_update c6_start c6_env).outcome = .hung ∧
    update c6_start c6_env = .ok ((perform_update c6_start c6_env).state, true) ∧
    c6_start.token_info = some ⟨1, .str "OLD", .str "OLDV"⟩ ∧
    (perform_update c6_start c6_env).state.token_info =
      some ⟨5, .str "T1", .str "V1"⟩ ∧
    some (⟨5, .str "T1", .str "V1"⟩ : TokenInfo) ≠
      some (⟨1, .str "OLD", .str "OLDV"⟩ : TokenInfo) :=
  ⟨rfl, rfl, rfl, rfl, by simp⟩

/-- C6 amended: the hard ceiling is 600 seconds; an attempt still pending at
the ceiling is abandoned with an operator-visible error and no exception to
get() callers, and the abandonment itself does not modify the stored
credential — get() is unchanged unless the attempt had already published a
successfully extracted credential before the ceiling fired. -/
theorem C6_hard_ceiling_amended :
    HARD_CEILING_TIMEOUT = 600 ∧
    (∀ s env, (perform_update s env).outcome = .hung →
       update s env = .ok ((perform_update s env).state, true)) ∧
    (∀ s env, (perform_update s env).outcome = .hung →
       (∀ e ∈ env.embed_events ++ env.watch_events, publishes e.1 e.2 = false) →
       (perform_update s env).state.token_info = s.token_info) := by
  refine ⟨rfl, ?_, fun s env _ h => perform_update_token_info s env h⟩
  intro s env h
  simp [update, h]

/-- Witness for C6's amended claim: an attempt with no events that hangs in
tab.close is abandoned with the error logged and the stored credential
untouched. -/
theorem C6_hard_ceiling_amended_witness :
    update idle_state c6_hang_env =
      .ok ((perform_update idle_state c6_hang_env).state, true) ∧
    (perform_update idle_state c6_hang_env).state.token_info =
      idle_state.token_info :=
  ⟨C6_hard_ceiling_amended.2.1 idle_state c6_hang_env rfl,
   C6_hard_ceiling_amended.2.2 idle_state c6_hang_env rfl
     (by intro e he; simp [c6_hang_env] at he)⟩

/-- A session none of whose steps raises ends either normally or pending at
the ceiling. -/
theorem perform_update_outcome_raisefree (s : ExtState) (env : SessionEnv)
    (h : env.raisefree = true) :
    (perform_update s env).outcome = .completed ∨
    (perform_update s env).outcome = .hung := by
  unfold SessionEnv.raisefree at h
  simp only [Bool.and_eq_true, bne_iff_ne, ne_eq] at h
  obtain ⟨⟨⟨h1, h2⟩, h3⟩, h4⟩ := h
  unfold perform_update
  by_cases hl : s.ongoing_locked
  · rw [if_pos hl]; left; rfl
  · rw [if_neg hl]
    cases hc1 : env.launch <;> cases hc2 : env.nav_embed <;>
      cases hc3 : env.nav_watch <;> cases hc4 : env.close_tab <;>
      simp_all <;> split <;> simp

/-- An update over a raise-free session never leaves an exception. -/
theorem update_toBool_of_raisefree (s : ExtState) (env : SessionEnv)
    (h : env.raisefree = true) : (update s env).toBool = true := by
  rcases perform_update_outcome_raisefree s env h with ho | ho <;>
    simp [update, ho, Except.toBool]

/-- The run loop returns normally across any number of raise-free attempts. -/
theorem run_loop_toBool (s : ExtState) (envs : List SessionEnv)
    (h : ∀ e ∈ envs, e.raisefree = true) :
    (run_loop s envs).toBool = true := by
  induction envs generalizing s with
  | nil => rfl
  | cons env rest ih =>
    have hu := update_toBool_of_raisefree s env (h env (by simp))
    rw [run_loop]
    cases hup : update s env with
    | error e => rw [hup] at hu; simp [Except.toBool] at hu
    | ok p =>
      obtain ⟨s1, b⟩ := p
      exact ih _ fun e2 he => h e2 (by simp [he])

/-- C7 counterexample: a browser launch failure (the FileNotFoundError
re-raised at lines 256-258) is not caught by _update, which handles only
asyncio.TimeoutError, and propagates out of run() — the claim says no
internal failure ever does. -/
theorem C7_counterexample :
    run_model idle_state c7_launch_fail_env [] = .error .fileNotFound := rfl

/-- C7 amended: timeout failures — completion waits and the hard ceiling —
never propagate, and run() survives arbitrarily many raise-free failed
attempts; but an exception raised inside an attempt, browser launch failure
included, escapes update and terminates run(). -/
theorem C7_run_exceptions_amended :
    (∀ s env0 envs, env0.raisefree = true → (∀ e ∈ envs, e.raisefree = true) →
       (run_model s env0 envs).toBool = true) ∧
    (∀ s env, s.ongoing_locked = false → env.launch = .raises →
       update s env = .error .fileNotFound) := by
  constructor
  · intro s env0 envs h0 hrest
    have hu := update_toBool_of_raisefree s env0 h0
    unfold run_model
    cases hup : update s env0 with
    | error e => rw [hup] at hu; simp [Except.toBool] at hu
    | ok p =>
      obtain ⟨s1, b⟩ := p
      exact run_loop_toBool _ envs hrest
  · intro s env hl hle
    simp [update, perform_update, hl, hle]

/-- Witness for C7's amended claim: three consecutive hung (hence failed)
attempts and run() still returns normally. -/
theorem C7_run_exceptions_amended_witness :
    (run_model idle_state c6_hang_env [c6_hang_env, c6_hang_env]).toBool =
      true :=
  C7_run_exceptions_amended.1 idle_state c6_hang_env [c6_hang_env, c6_hang_env]
    rfl (by intro e he; simp only [List.mem_cons, List.not_mem_nil,
      or_false] at he; rcases he with rfl | rfl <;> rfl)

/-- C8 counterexample: when the embed navigation raises after the browser was
obtained, the session ends by exception with tab.close and browser.stop never
invoked — the claim says both run exactly once on every exit path, including
exceptions raised after the browser is obtained. -/
theorem C8_counterexample :
    (perform_update idle_state c8_nav_fail_env).outcome =
      .raised .navigationError ∧
    (perform_update idle_state c8_nav_fail_env).tab_closes = 0 ∧
    (perform_update idle_state c8_nav_fail_env).browser_stops = 0 :=
  ⟨rfl, rfl, rfl⟩

/-- C8 amended: tab.close and browser.stop run exactly once on the exit paths
where the session body runs to completion — success and elapsed completion
waits — and never on hard-ceiling abandonment or on an exception raised after
the browser is obtained (there is no try/finally around the body). -/
theorem C8_cleanup_amended (s : ExtState) (env : SessionEnv)
    (hl : s.ongoing_locked = false) :
    ((perform_update s env).outcome = .completed →
       (perform_update s env).tab_closes = 1 ∧
       (perform_update s env).browser_stops = 1) ∧
    ((perform_update s env).outcome ≠ .completed →
       (perform_update s env).tab_closes = 0 ∧
       (perform_update s env).browser_stops = 0) := by
  unfold perform_update
  rw [if_neg (by simp [hl])]
  cases env.launch <;> cases env.nav_embed <;> cases env.nav_watch <;>
    cases env.close_tab <;> simp <;> split <;> simp

/-- Witness for C8's amended claim: a completed session closes the tab and
stops the browser exactly once. -/
theorem C8_cleanup_amended_witness :
    (perform_update idle_state c9_all_ok_env).tab_closes = 1 ∧
    (perform_update idle_state c9_all_ok_env).browser_stops = 1 :=
  (C8_cleanup_amended idle_state c9_all_ok_env rfl).1 rfl

/-- C9: when the 15-second completion wait ends with the signal set, the
fallback navigation is never taken and the session performed exactly the
short wait; when it elapses unsignalled, the fallback navigation is attempted
exactly once, and when that navigation returns the session waits again with
the 120-second timeout. -/
theorem C9_fallback_exactly_once (s : ExtState) (env : SessionEnv)
    (hl : s.ongoing_locked = false) (h1 : env.launch = .ok)
    (h2 : env.nav_embed = .ok) :
    ((process_events (session_enter s) env.embed_events).extraction_done =
        true →
       (perform_update s env).fallback_navs = 0 ∧
       (perform_update s env).waits = [SHORT_WAIT_TIMEOUT]) ∧
    ((process_events (session_enter s) env.embed_events).extraction_done =
        false →
       (perform_update s env).fallback_navs = 1 ∧
       SHORT_WAIT_TIMEOUT ∈ (perform_update s env).waits ∧
       (env.nav_watch = .ok →
         (perform_update s env).waits =
           [SHORT_WAIT_TIMEOUT, LONG_WAIT_TIMEOUT])) ∧
    SHORT_WAIT_TIMEOUT = 15 ∧ LONG_WAIT_TIMEOUT = 120 := by
  refine ⟨?_, ?_, rfl, rfl⟩ <;>
    (unfold perform_update
     rw [if_neg (by simp [hl])]
     rw [h1, h2]
     cases hw : env.nav_watch <;> cases env.close_tab <;> simp <;>
       split <;> simp_all)

/-- Witness for C9: a session whose embed phase produces no credential takes
the fallback exactly once and performs the 15-second then the 120-second
wait. -/
theorem C9_fallback_exactly_once_witness :
    (perform_update idle_state c9_all_ok_env).fallback_navs = 1 ∧
    (perform_update idle_state c9_all_ok_env).waits =
      [SHORT_WAIT_TIMEOUT, LONG_WAIT_TIMEOUT] :=
  ⟨((C9_fallback_exactly_once idle_state c9_all_ok_env rfl rfl rfl).2.1
      rfl).1,
   ((C9_fallback_exactly_once idle_state c9_all_ok_env rfl rfl rfl).2.1
      rfl).2.2 rfl⟩

end Potoken
